import Mathlib

/-!
Verification development for the AdaIN training pipeline (train.py).

The definitions below are a shallow embedding of the training script:
the checkpoint schedule, the learning-rate schedule, the per-iteration
train/validation loop, the flat-folder dataset, the image transforms and
the seeding logic.  The style-transfer network, the image decoder and the
optimizer update rule are external collaborators of the script and are
modelled as abstract function parameters; everything the script itself
computes is transcribed from the source.
-/

namespace AdaIN

/-! ### Decimal representation: injectivity of Nat.repr

The checkpoint file is named by embedding the decimal representation of
the completed iteration count into a string, so distinctness of file
names rests on injectivity of decimal printing.  We recover the printed
digit list of Nat.repr in terms of Nat.digits and build an explicit
decoder, giving a left inverse. -/

/-- Inverse of Nat.digitChar on decimal digits. -/
def charToDigit (c : Char) : ℕ := c.toNat - 48

/-- The character list produced by decimal printing of a positive number:
most-significant digit first. -/
def decChars (b n : ℕ) : List Char := ((Nat.digits b n).map Nat.digitChar).reverse

theorem charToDigit_digitChar (d : ℕ) (hd : d < 10) :
    charToDigit (Nat.digitChar d) = d := by
  interval_cases d <;> rfl

theorem toDigitsCore_eq (b : ℕ) (hb : 2 ≤ b) :
    ∀ (f n : ℕ) (l : List Char), n < f →
      Nat.toDigitsCore b f n l = (if n = 0 then [ '0' ] else decChars b n) ++ l := by
  intro f
  induction f with
  | zero => intro n l h; omega
  | succ f ih =>
    intro n l h
    show (if n / b = 0 then Nat.digitChar (n % b) :: l
          else Nat.toDigitsCore b f (n / b) (Nat.digitChar (n % b) :: l)) = _
    by_cases hdiv : n / b = 0
    · have hnb : n < b := (Nat.div_eq_zero_iff (by omega)).mp hdiv
      rw [if_pos hdiv]
      by_cases hn : n = 0
      · subst hn
        rw [Nat.zero_mod]
        rfl
      · have h1b : 1 < b := by omega
        have hdig : Nat.digits b n = [n % b] := by
          rw [Nat.digits_def' h1b (Nat.pos_of_ne_zero hn), hdiv]
          simp
        simp [if_neg hn, decChars, hdig]
    · have hn : n ≠ 0 := by
        intro hn0; subst hn0; simp at hdiv
      have hlt : n / b < f := by
        have hself : n / b < n := Nat.div_lt_self (Nat.pos_of_ne_zero hn) (by omega)
        omega
      rw [if_neg hdiv, ih (n / b) (Nat.digitChar (n % b) :: l) hlt, if_neg hdiv]
      have hdig : Nat.digits b n = n % b :: Nat.digits b (n / b) :=
        Nat.digits_def' (by omega) (Nat.pos_of_ne_zero hn)
      simp only [if_neg hn, decChars, hdig, List.map_cons, List.reverse_cons,
        List.append_assoc, List.singleton_append]

theorem repr_data_eq (n : ℕ) :
    (Nat.repr n).data = if n = 0 then [ '0' ] else decChars 10 n := by
  show (Nat.toDigits 10 n).asString.data = _
  show (Nat.toDigitsCore 10 (n + 1) n []).asString.data = _
  rw [toDigitsCore_eq 10 (by omega) (n + 1) n [] (Nat.lt_succ_self n)]
  simp [List.asString]

/-- Decode a decimal character list (most-significant digit first) back to
the number it prints. -/
def decodeDec (l : List Char) : ℕ := Nat.ofDigits 10 (l.reverse.map charToDigit)

theorem decodeDec_repr (n : ℕ) : decodeDec (Nat.repr n).data = n := by
  rw [repr_data_eq]
  by_cases hn : n = 0
  · subst hn; simp [decodeDec, charToDigit, Nat.ofDigits]
  · rw [if_neg hn]
    unfold decodeDec decChars
    rw [List.reverse_reverse, List.map_map]
    have hmap : (Nat.digits 10 n).map (charToDigit ∘ Nat.digitChar) =
        (Nat.digits 10 n).map id :=
      List.map_congr_left fun d hd =>
        charToDigit_digitChar d (Nat.digits_lt_base (by omega) hd)
    rw [hmap, List.map_id, Nat.ofDigits_digits]

theorem repr_injective : Function.Injective Nat.repr := by
  intro m n h
  have := congrArg String.data h
  have hm := decodeDec_repr m
  have hn := decodeDec_repr n
  rw [this] at hm
  omega

/-! ### Learning-rate schedule (train.py lines 75-79) -/

/-- Learning-rate schedule value: lr = args.lr / (1.0 + args.lr_decay *
iteration_count) (train.py line 77). -/
def rate (base decay : ℚ) (iteration : ℕ) : ℚ := base / (1 + decay * (iteration : ℚ))

structure ParamGroup where
  lr : ℚ
deriving DecidableEq

structure Optimizer where
  param_groups : List ParamGroup
deriving DecidableEq

/-- Embedding of adjust_learning_rate (train.py lines 75-79): computes
lr = base / (1 + decay * iteration_count) and overwrites the lr entry of
every param group with it. -/
def adjust_learning_rate (base decay : ℚ) (o : Optimizer) (iteration_count : ℕ) :
    Optimizer :=
  { o with param_groups := o.param_groups.map fun g =>
      { g with lr := base / (1 + decay * (iteration_count : ℚ)) } }

/-! ### Flat folder dataset (train.py lines 55-72) -/

/-- Snapshot of the relevant filesystem state: each existing directory maps
to the list of names of its direct children. -/
structure FileSystem where
  dirs : String → Option (List String)

/-- Embedding of list(Path(root).glob("*")) (train.py line 59): all direct
children of the directory, each joined to the root. pathlib's glob checks
is_dir() first and returns an empty iterator for a missing or non-directory
path instead of raising. -/
def globStar (fs : FileSystem) (root : String) : List String :=
  match fs.dirs root with
  | some names => names.map fun n => root ++ "/" ++ n
  | none => []

inductive DatasetError where
  | directoryNotFound
  | indexOutOfRange
deriving DecidableEq

structure FlatFolderDataset (Image Tensor : Type) where
  root : String
  paths : List String
  transform : Image → Tensor

/-- Embedding of FlatFolderDataset.__init__ (train.py lines 56-60): captures
the glob enumeration once. No statement in the body can raise for a missing
directory, so construction always succeeds. -/
def FlatFolderDataset.construct {Image Tensor : Type} (fs : FileSystem) (root : String)
    (transform : Image → Tensor) : Except DatasetError (FlatFolderDataset Image Tensor) :=
  Except.ok { root := root, paths := globStar fs root, transform := transform }

def FlatFolderDataset.len {Image Tensor : Type} (d : FlatFolderDataset Image Tensor) : ℕ :=
  d.paths.length

/-- Python list indexing: a negative index counts from the end of the list;
the access succeeds exactly when the normalized index lands in [0, n). -/
def pyIndex (n : ℕ) (i : ℤ) : Option (Fin n) :=
  let j := if i < 0 then i + (n : ℤ) else i
  if h : 0 ≤ j ∧ j < (n : ℤ) then some ⟨j.toNat, by omega⟩ else none

/-- Embedding of FlatFolderDataset.__getitem__ (train.py lines 62-66):
self.paths[index] with Python list-index semantics, then
Image.open(str(path)).convert("RGB") — modelled by the load map, total
because truncated and oversized files are configured to decode
best-effort (train.py lines 20-22) — then the captured transform. -/
def FlatFolderDataset.getItem {Image Tensor : Type} (load : String → Image)
    (d : FlatFolderDataset Image Tensor) (index : ℤ) : Except DatasetError Tensor :=
  match pyIndex d.paths.length index with
  | some j => Except.ok (d.transform (load (d.paths.get j)))
  | none => Except.error DatasetError.indexOutOfRange

/-! ### Image transforms (train.py lines 37-52 and 136-138) -/

inductive TransformStep where
  | resize (height width : ℕ)
  | toTensor
deriving DecidableEq

/-- Embedding of train_transform (train.py lines 37-43). -/
def train_transform : List TransformStep :=
  [TransformStep.resize 512 512, TransformStep.toTensor]

/-- Embedding of val_transform (train.py lines 46-52). -/
def val_transform : List TransformStep :=
  [TransformStep.resize 512 512, TransformStep.toTensor]

/-- Transform bound to the train-content stream (train.py line 136). -/
def train_content_tf : List TransformStep := train_transform

/-- Transform bound to the validation-content stream (train.py line 137). -/
def val_content_tf : List TransformStep := val_transform

/-- Transform bound to the style stream (train.py line 138). -/
def style_tf : List TransformStep := train_transform

/-- Semantics of the primitive transform steps, over one value domain
covering images and tensors. -/
structure TransformSem (V : Type) where
  resize : ℕ → ℕ → V → V
  toTensor : V → V

def applySteps {V : Type} (sem : TransformSem V) (steps : List TransformStep) (v : V) : V :=
  steps.foldl
    (fun acc s =>
      match s with
      | TransformStep.resize h w => sem.resize h w acc
      | TransformStep.toTensor => sem.toTensor acc)
    v

/-! ### Configuration schema and seeding (train.py lines 25-34, 82-120) -/

/-- Configuration schema of the argparse parser (train.py lines 82-118):
one field per registered option. -/
structure Args where
  train_content_dir : String
  val_content_dir : String
  style_dir : String
  vgg : String
  save_dir : String
  log_dir : String
  lr : ℚ
  lr_decay : ℚ
  max_iter : ℕ
  batch_size : ℕ
  style_weight : ℚ
  content_weight : ℚ
  n_threads : ℕ
  save_model_interval : ℕ
  loss_print_interval : ℕ

/-- Option strings registered on the argparse parser (train.py lines 82-117). -/
def configOptionNames : List String :=
  ["--train_content_dir", "--val_content_dir", "--style_dir", "--vgg",
   "--save_dir", "--log_dir", "--lr", "--lr_decay", "--max_iter",
   "--batch_size", "--style_weight", "--content_weight", "--n_threads",
   "--save_model_interval", "--loss_print_interval"]

/-- Default value of the seed parameter of seed_everything (train.py line 25). -/
def seed_everything_default : ℕ := 42

/-- The seed the pipeline passes to seed_everything: train.py line 120 calls
seed_everything() with no argument, so the default is used whatever the
parsed configuration says. -/
def pipelineSeed (_ : Args) : ℕ := seed_everything_default

/-- Process-wide RNG state touched by seed_everything (train.py lines
25-34), one abstract state value per generator. -/
structure RandomState where
  python : ℕ
  numpy : ℕ
  torch : ℕ
  torchCudaAll : ℕ

/-- Embedding of seed_everything (train.py lines 25-34): every generator
state is overwritten with the seed; the prior ambient state is discarded. -/
def seed_everything (seed : ℕ) (_ambient : RandomState) : RandomState :=
  { python := seed, numpy := seed, torch := seed, torchCudaAll := seed }

/-! ### Infinite sampler index streams

Modelled from the spec: the InfiniteSamplerWrapper source (sampler.py) is
not under src/; spec section 4.3 says the sampler repeatedly draws a fresh
random permutation of [0, N) from the seeded generator and emits its
elements in order. The generator is a state advanced by a pure transition;
the permutation drawn for a cycle is a pure function of the state at that
cycle. The particular permutation values are irrelevant to the determinism
claim, which is about dependence on the seed alone. -/

/-- Modelled from the spec: pure transition of the numpy generator state
between permutation draws (sampler.py is not under src/). -/
def nextRngState (s : ℕ) : ℕ := (6364136223846793005 * s + 1442695040888963407) % 2 ^ 64

/-- Modelled from the spec: the permutation of [0, n) drawn from generator
state s (sampler.py is not under src/). -/
def permOfState (n : ℕ) (s : ℕ) : List ℕ := (List.range n).map fun i => (i + s) % n

/-- Modelled from the spec: index stream of one infinite sampler over a
dataset of size n starting from generator state s; the k-th sample is
element k % n of the permutation drawn for cycle k / n. -/
def samplerStream (n : ℕ) (s : ℕ) (k : ℕ) : ℕ :=
  (permOfState n (nextRngState^[k / n] s)).getD (k % n) 0

/-- The infinite-sampler index streams of one pipeline run: the process
starts from an arbitrary ambient RNG state, seed_everything is called with
the given seed (train.py line 120), and each sampler then draws from the
seeded numpy generator. -/
def pipelineSampledIndices (ambient : RandomState) (seed : ℕ) (nContent nStyle : ℕ) :
    (ℕ → ℕ) × (ℕ → ℕ) :=
  let st := (seed_everything seed ambient).numpy
  (samplerStream nContent st, samplerStream nStyle st)

/-! ### Training loop (train.py lines 170-216)

The network, the autograd engine and the Adam update are external
collaborators: they enter as the abstract operations of NetSem. Every
observable action of the loop body is recorded as an Event in source
order, and the mutable state of the script is threaded explicitly. -/

/-- Observable actions of one loop iteration, in source order. -/
inductive Event (B : Type) where
  | logScalar (tag : String) (value : ℚ) (step : ℕ)
  | forwardCall (training noGrad : Bool) (content style : B)
  | zeroGrad
  | backward (loss : ℚ)
  | optStep
  | printLoss (step : ℕ)
  | saveCheckpoint (file : String)

/-- Black-box contract of the network, autograd and optimizer: forward
takes the mode, current parameters and the two batches and yields the two
scalar losses; grad and adamStep stand for loss.backward() and
optimizer.step(). -/
structure NetSem (P OS G B : Type) where
  forward : Bool → P → B → B → ℚ × ℚ
  grad : P → ℚ → G
  adamStep : P → OS → G → P × OS

/-- The three batch iterators (train.py lines 144-168), each an infinite
sequence of batches indexed by how many next() calls preceded. -/
structure Streams (B : Type) where
  styleBatches : ℕ → B
  trainContentBatches : ℕ → B
  valContentBatches : ℕ → B

/-- Mutable state of the script across the loop. -/
structure LoopState (P OS : Type) where
  params : P
  optMoments : OS
  optimizer : Optimizer
  styleCursor : ℕ
  trainCursor : ℕ
  valCursor : ℕ
  trainingMode : Bool

/-- Checkpoint condition of train.py line 211. -/
def saveCond (a : Args) (i : ℕ) : Bool :=
  (i + 1) % a.save_model_interval == 0 || (i + 1) == a.max_iter

/-- Checkpoint file name of train.py line 215:
"decoder_iter_" followed by the decimal of i + 1 and ".pth.tar". -/
def checkpointFileName (k : ℕ) : String :=
  "decoder_iter_" ++ Nat.repr k ++ ".pth.tar"

/-- Train part of the iteration body (train.py lines 179-192). -/
def trainPhase {P OS G B : Type} (sem : NetSem P OS G B) (a : Args) (streams : Streams B)
    (s : LoopState P OS) (style_images : B) (i : ℕ) : LoopState P OS × List (Event B) :=
  let s1 := { s with trainingMode := true }
  let train_content_images := streams.trainContentBatches s1.trainCursor
  let s2 := { s1 with trainCursor := s1.trainCursor + 1 }
  let losses := sem.forward true s2.params train_content_images style_images
  let train_loss_c := a.content_weight * losses.1
  let train_loss_s := a.style_weight * losses.2
  let train_loss := train_loss_c + train_loss_s
  let g := sem.grad s2.params train_loss
  let stepped := sem.adamStep s2.params s2.optMoments g
  let s3 := { s2 with params := stepped.1, optMoments := stepped.2 }
  (s3,
    [Event.forwardCall true false train_content_images style_images,
     Event.zeroGrad, Event.backward train_loss, Event.optStep,
     Event.logScalar "train loss_content" train_loss_c (i + 1),
     Event.logScalar "train loss_style" train_loss_s (i + 1)])

/-- Val part of the iteration body (train.py lines 194-204): runs inside
torch.no_grad() in eval mode; no gradient or optimizer action occurs. -/
def valPhase {P OS G B : Type} (sem : NetSem P OS G B) (a : Args) (streams : Streams B)
    (s : LoopState P OS) (style_images : B) (i : ℕ) : LoopState P OS × List (Event B) :=
  let s1 := { s with trainingMode := false }
  let val_content_images := streams.valContentBatches s1.valCursor
  let s2 := { s1 with valCursor := s1.valCursor + 1 }
  let losses := sem.forward false s2.params val_content_images style_images
  let val_loss_c := a.content_weight * losses.1
  let val_loss_s := a.style_weight * losses.2
  (s2,
    [Event.forwardCall false true val_content_images style_images,
     Event.logScalar "val loss_content" val_loss_c (i + 1),
     Event.logScalar "val loss_style" val_loss_s (i + 1)])

/-- One iteration of the loop body (train.py lines 172-215). -/
def runIteration {P OS G B : Type} (sem : NetSem P OS G B) (a : Args) (streams : Streams B)
    (s : LoopState P OS) (i : ℕ) : LoopState P OS × List (Event B) :=
  let opt1 := adjust_learning_rate a.lr a.lr_decay s.optimizer i
  let cur_lr := (opt1.param_groups.head?.map ParamGroup.lr).getD 0
  let s1 := { s with optimizer := opt1 }
  let style_images := streams.styleBatches s1.styleCursor
  let s2 := { s1 with styleCursor := s1.styleCursor + 1 }
  let tr := trainPhase sem a streams s2 style_images i
  let vr := valPhase sem a streams tr.1 style_images i
  let printEvents : List (Event B) :=
    if (i + 1) % a.loss_print_interval == 0 then [Event.printLoss (i + 1)] else []
  let saveEvents : List (Event B) :=
    if saveCond a i then [Event.saveCheckpoint (checkpointFileName (i + 1))] else []
  (vr.1,
    Event.logScalar "Learning rate" cur_lr (i + 1) :: (tr.2 ++ vr.2 ++ printEvents ++ saveEvents))

/-- Run of the loop body over a list of iteration indices, accumulating
events in order. -/
def runIters {P OS G B : Type} (sem : NetSem P OS G B) (a : Args) (streams : Streams B) :
    List ℕ → LoopState P OS → LoopState P OS × List (Event B)
  | [], s => (s, [])
  | i :: rest, s =>
    let r := runIteration sem a streams s i
    let r2 := runIters sem a streams rest r.1
    (r2.1, r.2 ++ r2.2)

/-- The whole training run: for i in range(args.max_iter) (train.py line 172). -/
def runLoop {P OS G B : Type} (sem : NetSem P OS G B) (a : Args) (streams : Streams B)
    (s0 : LoopState P OS) : LoopState P OS × List (Event B) :=
  runIters sem a streams (List.range a.max_iter) s0

/-- Checkpoint file written by an event, if any. -/
def eventCheckpoint {B : Type} : Event B → Option String
  | Event.saveCheckpoint f => some f
  | _ => none

def checkpointNames {B : Type} (es : List (Event B)) : List String :=
  es.filterMap eventCheckpoint

/-- Forward-pass call recorded by an event, if any: the mode flag, the
no-grad flag, the content batch and the style batch. -/
def eventForward {B : Type} : Event B → Option (Bool × Bool × B × B)
  | Event.forwardCall training noGrad c st => some (training, noGrad, c, st)
  | _ => none

def forwardCalls {B : Type} (es : List (Event B)) : List (Bool × Bool × B × B) :=
  es.filterMap eventForward

/-- Does the event touch gradient or optimizer state? -/
def isOptimEvent {B : Type} : Event B → Bool
  | Event.zeroGrad => true
  | Event.backward _ => true
  | Event.optStep => true
  | _ => false

def optimEvents {B : Type} (es : List (Event B)) : List (Event B) :=
  es.filter isOptimEvent

/-! ### Claim theorems -/

/-- C3: within every single iteration of the training loop, the style batch
passed to the training forward pass and the style batch passed to the
validation forward pass are the same batch — the one drawn from the style
stream at the current cursor, drawn exactly once per iteration (the cursor
advances by exactly one) — and only the content batch differs between the
two forward calls. -/
theorem style_batch_shared_per_iteration {P OS G B : Type} (sem : NetSem P OS G B)
    (a : Args) (streams : Streams B) (s : LoopState P OS) (i : ℕ) :
    forwardCalls (runIteration sem a streams s i).2 =
      [(true, false, streams.trainContentBatches s.trainCursor,
        streams.styleBatches s.styleCursor),
       (false, true, streams.valContentBatches s.valCursor,
        streams.styleBatches s.styleCursor)]
    ∧ (runIteration sem a streams s i).1.styleCursor = s.styleCursor + 1 := by
  refine ⟨?_, rfl⟩
  by_cases hp : ((i + 1) % a.loss_print_interval == 0) = true <;>
    by_cases hs : saveCond a i = true <;>
      simp [runIteration, trainPhase, valPhase, forwardCalls, eventForward, hp, hs]

/-- C4: in every iteration's training phase, the sequence of gradient and
optimizer events is exactly clear-gradients, then backpropagation of
content_weight * loss_c + style_weight * loss_s where (loss_c, loss_s) is
the forward result on the train-content and style batches, then one single
optimizer step; the parameters and moment state after the iteration are
the result of that one step. -/
theorem train_step_weighted_loss {P OS G B : Type} (sem : NetSem P OS G B)
    (a : Args) (streams : Streams B) (s : LoopState P OS) (i : ℕ) :
    optimEvents (runIteration sem a streams s i).2 =
      [Event.zeroGrad,
       Event.backward
         (a.content_weight *
            (sem.forward true s.params (streams.trainContentBatches s.trainCursor)
              (streams.styleBatches s.styleCursor)).1 +
          a.style_weight *
            (sem.forward true s.params (streams.trainContentBatches s.trainCursor)
              (streams.styleBatches s.styleCursor)).2),
       Event.optStep]
    ∧ (runIteration sem a streams s i).1.params =
        (sem.adamStep s.params s.optMoments
          (sem.grad s.params
            (a.content_weight *
               (sem.forward true s.params (streams.trainContentBatches s.trainCursor)
                 (streams.styleBatches s.styleCursor)).1 +
             a.style_weight *
               (sem.forward true s.params (streams.trainContentBatches s.trainCursor)
                 (streams.styleBatches s.styleCursor)).2))).1
    ∧ (runIteration sem a streams s i).1.optMoments =
        (sem.adamStep s.params s.optMoments
          (sem.grad s.params
            (a.content_weight *
               (sem.forward true s.params (streams.trainContentBatches s.trainCursor)
                 (streams.styleBatches s.styleCursor)).1 +
             a.style_weight *
               (sem.forward true s.params (streams.trainContentBatches s.trainCursor)
                 (streams.styleBatches s.styleCursor)).2))).2 := by
  refine ⟨?_, rfl, rfl⟩
  by_cases hp : ((i + 1) % a.loss_print_interval == 0) = true <;>
    by_cases hs : saveCond a i = true <;>
      simp [runIteration, trainPhase, valPhase, optimEvents, isOptimEvent, hp, hs]

/-- C5: the validation phase leaves the learnable parameters, the optimizer
moment state and the optimizer param groups unchanged; it performs exactly
one forward call, in eval mode under the no-gradient scope, and emits no
gradient-clearing, backward or optimizer-step event. -/
theorem val_phase_no_update {P OS G B : Type} (sem : NetSem P OS G B)
    (a : Args) (streams : Streams B) (s : LoopState P OS) (style_images : B) (i : ℕ) :
    (valPhase sem a streams s style_images i).1.params = s.params
    ∧ (valPhase sem a streams s style_images i).1.optMoments = s.optMoments
    ∧ (valPhase sem a streams s style_images i).1.optimizer = s.optimizer
    ∧ forwardCalls (valPhase sem a streams s style_images i).2 =
        [(false, true, streams.valContentBatches s.valCursor, style_images)]
    ∧ optimEvents (valPhase sem a streams s style_images i).2 = [] :=
  ⟨rfl, rfl, rfl, rfl, rfl⟩

/-- C8: two runs of the pipeline with the same seed — each starting from an
arbitrary ambient RNG state, which seed_everything overwrites — produce
identical index streams from both infinite samplers at every position. -/
theorem sampler_two_run_determinism (a1 a2 : RandomState)
    (seed nContent nStyle k : ℕ) :
    ((pipelineSampledIndices a1 seed nContent nStyle).1 k =
      (pipelineSampledIndices a2 seed nContent nStyle).1 k)
    ∧ ((pipelineSampledIndices a1 seed nContent nStyle).2 k =
      (pipelineSampledIndices a2 seed nContent nStyle).2 k) :=
  ⟨rfl, rfl⟩

/-- C9: the transform of the train-content stream, of the validation-content
stream and of the style stream are the same pipeline — resize to 512x512
followed by tensor conversion — so under any semantics of the primitive
steps all three send equal inputs to equal results. -/
theorem three_transforms_identical {V : Type} (sem : TransformSem V) (v : V) :
    train_content_tf = val_content_tf
    ∧ val_content_tf = style_tf
    ∧ train_content_tf = [TransformStep.resize 512 512, TransformStep.toTensor]
    ∧ applySteps sem train_content_tf v = applySteps sem val_content_tf v
    ∧ applySteps sem val_content_tf v = applySteps sem style_tf v :=
  ⟨rfl, rfl, rfl, rfl, rfl⟩

/-- C10: every run seeds with the fixed value 42 — seed_everything is
invoked with its default, whatever the parsed configuration — and the
configuration schema registers no option whose name contains seed. -/
theorem seed_fixed_42 (a : Args) (ambient : RandomState) :
    pipelineSeed a = 42
    ∧ seed_everything_default = 42
    ∧ seed_everything (pipelineSeed a) ambient =
        { python := 42, numpy := 42, torch := 42, torchCudaAll := 42 }
    ∧ (configOptionNames.all fun o => !(o == "--seed")) = true
    ∧ (configOptionNames.all fun o => !(decide ("seed".data <:+: o.data))) = true := by
  refine ⟨rfl, rfl, rfl, by decide, by decide⟩

theorem paramGroups_overwrite (v : ℚ) :
    ∀ l : List ParamGroup, l.map (fun g => { g with lr := v }) =
      List.replicate l.length { lr := v }
  | [] => rfl
  | _ :: t => by simp [paramGroups_overwrite v t, List.replicate_succ]

/-- C2 counterexample: with base rate 0 and decay 1 > 0 the schedule is not
strictly decreasing — it takes the same value at iterations 0 and 1 — so
strict decrease for positive decay fails without a positivity assumption on
the base rate. -/
theorem rate_not_strictly_decreasing_for_zero_base :
    (0 : ℚ) < 1 ∧ rate 0 1 1 = rate 0 1 0 := by
  constructor
  · norm_num
  · norm_num [rate]

/-- C2 (amended): adjust_learning_rate writes the pure function
rate(base, decay, i) into every param group, depending on the optimizer
only through its number of param groups and never on the previously
applied rate; rate equals base at iteration 0; for base > 0 it is strictly
decreasing in the iteration when decay > 0; and for decay = 0 it is
constantly base. -/
theorem learning_rate_schedule (base decay : ℚ) (o o2 : Optimizer) (i j : ℕ) :
    ((adjust_learning_rate base decay o i).param_groups.all
        fun g => decide (g.lr = rate base decay i)) = true
    ∧ (o.param_groups.length = o2.param_groups.length →
        adjust_learning_rate base decay o i = adjust_learning_rate base decay o2 i)
    ∧ rate base decay 0 = base
    ∧ (0 < base → 0 < decay → i < j → rate base decay j < rate base decay i)
    ∧ rate base 0 i = base := by
  refine ⟨?_, ?_, ?_, ?_, ?_⟩
  · simp only [adjust_learning_rate, List.all_map, List.all_eq_true]
    intro g _
    simp [rate]
  · intro h
    simp only [adjust_learning_rate, Optimizer.mk.injEq]
    rw [paramGroups_overwrite, paramGroups_overwrite, h]
  · simp [rate]
  · intro hb hd hij
    unfold rate
    have hcast : (i : ℚ) < (j : ℚ) := by exact_mod_cast hij
    apply div_lt_div_of_pos_left hb
    · positivity
    · nlinarith
  · simp [rate]

/-- C2 witness: the amended schedule theorem at base 1, decay 1, concrete
one-group optimizers and iterations 0 < 1. -/
theorem learning_rate_schedule_witness : rate 1 1 1 < rate 1 1 0 :=
  (learning_rate_schedule 1 1 { param_groups := [{ lr := 5 }] }
      { param_groups := [{ lr := 7 }] } 0 1).2.2.2.1
    (by norm_num) (by norm_num) (by norm_num)

theorem pyIndex_none (n : ℕ) (i : ℤ) (h : i < -(n : ℤ) ∨ (n : ℤ) ≤ i) :
    pyIndex n i = none := by
  simp only [pyIndex]
  split_ifs <;> first | rfl | (exfalso; omega)

theorem pyIndex_nonneg (n : ℕ) (i : ℤ) (h0 : 0 ≤ i) (hn : i < (n : ℤ))
    (hk : i.toNat < n) : pyIndex n i = some ⟨i.toNat, hk⟩ := by
  simp only [pyIndex]
  split_ifs <;> first | rfl | (exfalso; omega)

theorem pyIndex_neg (n : ℕ) (i : ℤ) (hneg : i < 0) (hge : -(n : ℤ) ≤ i)
    (hk : (i + (n : ℤ)).toNat < n) : pyIndex n i = some ⟨(i + (n : ℤ)).toNat, hk⟩ := by
  simp only [pyIndex]
  split_ifs <;> first | rfl | (exfalso; omega)

/-- Filesystem snapshot in which no directory exists. -/
def emptyFS : FileSystem := { dirs := fun _ => none }

/-- Filesystem snapshot with one directory holding two image files. -/
def twoFileFS : FileSystem :=
  { dirs := fun r => if r = "data" then some ["a.jpg", "b.png"] else none }

/-- C6 counterexample: constructing the dataset on a directory that does not
exist in the snapshot does not fail — glob yields an empty enumeration — so
the dataset is built with zero paths instead of raising
DirectoryNotFoundError. -/
theorem construct_missing_dir_succeeds :
    @FlatFolderDataset.construct ℕ ℕ emptyFS "missing" id =
      Except.ok { root := "missing", paths := [], transform := id } := rfl

/-- C6 (amended): construction never fails; it captures the glob enumeration
once — all direct children joined to the root when the directory exists in
the snapshot (no recursion, no extension filtering), the empty enumeration
when it does not — and afterwards the length and every in-range indexed
access agree exactly with that captured enumeration. -/
theorem construct_spec {Image Tensor : Type} (fs : FileSystem) (root : String)
    (transform : Image → Tensor) (load : String → Image) :
    ∃ d : FlatFolderDataset Image Tensor,
      FlatFolderDataset.construct fs root transform = Except.ok d
      ∧ d.paths = globStar fs root
      ∧ (∀ names, fs.dirs root = some names →
          d.paths = names.map fun n => root ++ "/" ++ n)
      ∧ (fs.dirs root = none → d.paths = [])
      ∧ d.len = d.paths.length
      ∧ (∀ k : ℕ, k < d.paths.length →
          d.getItem load (k : ℤ) =
            Except.ok (transform (load (d.paths.getD k "")))) := by
  refine ⟨{ root := root, paths := globStar fs root, transform := transform },
    rfl, rfl, ?_, ?_, rfl, ?_⟩
  · intro names h
    simp [globStar, h]
  · intro h
    simp [globStar, h]
  · intro k hk
    have hkg : k < (globStar fs root).length := hk
    have hk2 : (k : ℤ).toNat < (globStar fs root).length := by omega
    have hpy : pyIndex (globStar fs root).length (k : ℤ) = some ⟨(k : ℤ).toNat, hk2⟩ :=
      pyIndex_nonneg _ _ (by omega) (by omega) hk2
    unfold FlatFolderDataset.getItem
    rw [hpy]
    simp [List.getD_eq_getElem?_getD, List.getElem?_eq_getElem hk]

/-- C6 witness: the amended construction theorem at the concrete two-file
snapshot. -/
theorem construct_spec_witness :
    ∃ d : FlatFolderDataset String String,
      FlatFolderDataset.construct twoFileFS "data" id = Except.ok d
      ∧ d.paths = globStar twoFileFS "data"
      ∧ (∀ names, twoFileFS.dirs "data" = some names →
          d.paths = names.map fun n => "data" ++ "/" ++ n)
      ∧ (twoFileFS.dirs "data" = none → d.paths = [])
      ∧ d.len = d.paths.length
      ∧ (∀ k : ℕ, k < d.paths.length →
          d.getItem id (k : ℤ) = Except.ok (id (id (d.paths.getD k "")))) :=
  construct_spec twoFileFS "data" id id

/-- Concrete dataset with a single captured path. -/
def oneFileDS : FlatFolderDataset String String :=
  { root := "r", paths := ["r/a.jpg"], transform := id }

/-- C7 counterexample: index -1 lies outside [0, length) yet the access
succeeds — Python list indexing wraps negative indices — returning the
transformed last file instead of failing with IndexOutOfRangeError. -/
theorem getItem_negative_index_succeeds :
    ((-1 : ℤ) < 0) ∧ oneFileDS.getItem id (-1) = Except.ok "r/a.jpg" :=
  ⟨by decide, rfl⟩

/-- C7 (amended): get(index) follows Python list-index semantics: it fails
with IndexOutOfRangeError iff index < -length or length ≤ index; for index
in [0, length) it opens, decodes and transforms the file at the captured
path of that index; for index in [-length, 0) it does the same for the
path at position length + index. -/
theorem getItem_spec {Image Tensor : Type} (d : FlatFolderDataset Image Tensor)
    (load : String → Image) (index : ℤ) :
    (d.getItem load index = Except.error DatasetError.indexOutOfRange ↔
      index < -(d.len : ℤ) ∨ (d.len : ℤ) ≤ index)
    ∧ (0 ≤ index ∧ index < (d.len : ℤ) →
        d.getItem load index =
          Except.ok (d.transform (load (d.paths.getD index.toNat ""))))
    ∧ (-(d.len : ℤ) ≤ index ∧ index < 0 →
        d.getItem load index =
          Except.ok (d.transform (load (d.paths.getD (index + (d.len : ℤ)).toNat "")))) := by
  have hlen : d.len = d.paths.length := rfl
  refine ⟨?_, ?_, ?_⟩
  · constructor
    · intro herr
      by_contra hout
      push_neg at hout
      unfold FlatFolderDataset.getItem at herr
      by_cases hneg : index < 0
      · have hk : (index + (d.paths.length : ℤ)).toNat < d.paths.length := by omega
        rw [pyIndex_neg d.paths.length index hneg (by omega) hk] at herr
        exact Except.noConfusion herr
      · have hk : index.toNat < d.paths.length := by omega
        rw [pyIndex_nonneg d.paths.length index (by omega) (by omega) hk] at herr
        exact Except.noConfusion herr
    · intro hout
      unfold FlatFolderDataset.getItem
      rw [pyIndex_none d.paths.length index (by omega)]
  · intro hin
    have hk : index.toNat < d.paths.length := by omega
    unfold FlatFolderDataset.getItem
    rw [pyIndex_nonneg d.paths.length index (by omega) (by omega) hk]
    simp [List.getD_eq_getElem?_getD, List.getElem?_eq_getElem hk]
  · intro hin
    have hk : (index + (d.len : ℤ)).toNat < d.paths.length := by omega
    unfold FlatFolderDataset.getItem
    rw [pyIndex_neg d.paths.length index (by omega) (by omega) hk]
    simp [List.getD_eq_getElem?_getD, List.getElem?_eq_getElem hk]
    rfl

/-- C7 witness: the amended access theorem at the one-file dataset and
index 0. -/
theorem getItem_spec_witness : oneFileDS.getItem id 0 = Except.ok "r/a.jpg" := by
  have h := (getItem_spec oneFileDS id 0).2.1 ⟨by decide, by decide⟩
  exact h

theorem checkpointFileName_injective : Function.Injective checkpointFileName := by
  intro x y h
  have hd := congrArg String.data h
  simp only [checkpointFileName, String.data_append] at hd
  have h2 := List.append_cancel_right hd
  have h3 := List.append_cancel_left h2
  exact repr_injective (String.ext h3)

theorem checkpointNames_append {B : Type} (xs ys : List (Event B)) :
    checkpointNames (xs ++ ys) = checkpointNames xs ++ checkpointNames ys :=
  List.filterMap_append xs ys eventCheckpoint

theorem saveCond_iff (a : Args) (i : ℕ) :
    saveCond a i = true ↔ ((i + 1) % a.save_model_interval = 0 ∨ i + 1 = a.max_iter) := by
  simp [saveCond]

theorem checkpointNames_runIteration {P OS G B : Type} (sem : NetSem P OS G B)
    (a : Args) (streams : Streams B) (s : LoopState P OS) (i : ℕ) :
    checkpointNames (runIteration sem a streams s i).2 =
      if saveCond a i then [checkpointFileName (i + 1)] else [] := by
  by_cases hs : saveCond a i = true <;>
    by_cases hp : ((i + 1) % a.loss_print_interval == 0) = true <;>
      simp [runIteration, trainPhase, valPhase, checkpointNames, eventCheckpoint, hs, hp]

theorem checkpointNames_runIters {P OS G B : Type} (sem : NetSem P OS G B)
    (a : Args) (streams : Streams B) :
    ∀ (L : List ℕ) (s : LoopState P OS),
      checkpointNames (runIters sem a streams L s).2 =
        (L.filter fun i => saveCond a i).map fun i => checkpointFileName (i + 1) := by
  intro L
  induction L with
  | nil => intro s; rfl
  | cons i rest ih =>
    intro s
    show checkpointNames ((runIteration sem a streams s i).2 ++
        (runIters sem a streams rest (runIteration sem a streams s i).1).2) = _
    rw [checkpointNames_append, checkpointNames_runIteration, ih, List.filter_cons]
    by_cases hs : saveCond a i = true <;> simp [hs]

/-- C1: at the end of iteration i a checkpoint is written if and only if
(i + 1) % save_model_interval == 0 or i + 1 == max_iter; the file written
then is decoder_iter_(i+1).pth.tar, named by the 1-indexed completed
iteration count; and across the whole run the written file names are
pairwise distinct, so no checkpoint file is ever overwritten. -/
theorem checkpoint_schedule {P OS G B : Type} (sem : NetSem P OS G B) (a : Args)
    (streams : Streams B) (s0 : LoopState P OS) (hsmi : 0 < a.save_model_interval) :
    (∀ (s : LoopState P OS) (i : ℕ),
        checkpointNames (runIteration sem a streams s i).2 =
          if (i + 1) % a.save_model_interval = 0 ∨ i + 1 = a.max_iter
          then [checkpointFileName (i + 1)] else [])
    ∧ (checkpointNames (runLoop sem a streams s0).2).Nodup := by
  constructor
  · intro s i
    rw [checkpointNames_runIteration]
    by_cases h : (i + 1) % a.save_model_interval = 0 ∨ i + 1 = a.max_iter <;>
      simp [saveCond_iff, h]
  · rw [runLoop, checkpointNames_runIters]
    apply List.Nodup.map
    · intro x y hxy
      have := checkpointFileName_injective hxy
      omega
    · exact (List.nodup_range _).filter _

/-- Trivial instantiation of the network contract, for concrete runs. -/
def trivialSem : NetSem Unit Unit Unit Unit :=
  { forward := fun _ _ _ _ => (0, 0), grad := fun _ _ => (),
    adamStep := fun p os _ => (p, os) }

/-- Trivial batch streams, for concrete runs. -/
def trivialStreams : Streams Unit :=
  { styleBatches := fun _ => (), trainContentBatches := fun _ => (),
    valContentBatches := fun _ => () }

/-- Concrete configuration: save interval 2, three iterations, otherwise
the documented defaults. -/
def witnessArgs : Args :=
  { train_content_dir := "tc", val_content_dir := "vc", style_dir := "st",
    vgg := "models/vgg_normalised.pth", save_dir := "./experiments",
    log_dir := "./logs", lr := 1 / 10000, lr_decay := 1 / 100000,
    max_iter := 3, batch_size := 8, style_weight := 1, content_weight := 1,
    n_threads := 16, save_model_interval := 2, loss_print_interval := 1 }

/-- Concrete initial loop state. -/
def witnessState : LoopState Unit Unit :=
  { params := (), optMoments := (),
    optimizer := { param_groups := [{ lr := 1 / 10000 }] },
    styleCursor := 0, trainCursor := 0, valCursor := 0, trainingMode := true }

/-- C1 witness: the schedule theorem applied at the concrete configuration
(save interval 2 > 0, three iterations) and trivial semantics. -/
theorem checkpoint_schedule_witness :
    (checkpointNames (runLoop trivialSem witnessArgs trivialStreams witnessState).2).Nodup :=
  (checkpoint_schedule trivialSem witnessArgs trivialStreams witnessState (by decide)).2

end AdaIN
